import Mathlib

/-!
Verification of the Krenoo backend alert-monitoring worker
(`app/workers/scraper_worker.py`) against its specification.

The worker's data model and operations are shallowly embedded:
timestamps are integers (seconds), dates are integers (days),
identifiers are natural numbers, database tables are lists of
records, and one processing cycle is a pure function from the
worker state (plus the outcomes of the external collaborators:
availability fetch, e-mail send, push sends) to a new state.
-/

namespace Krenoo

/-- One bookable slot as returned by the availability provider
(`DoinsportScraper.get_available_slots`), a dict in the source. -/
structure Slot where
  playground_id : Nat
  playground_name : String
  date : Int
  start_time : Nat
  duration_minutes : Nat
  price_total : Int
  indoor : Bool
deriving DecidableEq

/-- Row of the `user_alerts` table (`UserAlert` in `app/models/models.py`),
together with the boost fields the worker reads
(`boost_active`, `boost_expires_at`, declared in the API schemas). -/
structure UserAlert where
  id : Nat
  user_id : Nat
  club_id : Nat
  target_date : Int
  time_from : Nat
  time_to : Nat
  indoor_only : Option Bool
  is_active : Bool
  check_interval_minutes : Nat
  baseline_scraped : Bool
  last_checked_at : Option Int
  boost_active : Bool
  boost_expires_at : Option Int
  updated_at : Int
deriving DecidableEq

/-- Row of the `clubs` table, restricted to the fields the worker uses. -/
structure Club where
  id : Nat
  doinsport_id : Nat
  name : String
deriving DecidableEq

/-- Row of the `detected_slots` table (`DetectedSlot` in
`app/models/models.py`). -/
structure DetectedSlot where
  alert_id : Nat
  club_id : Nat
  playground_id : Nat
  playground_name : String
  date : Int
  start_time : Nat
  duration_minutes : Nat
  price_total : Int
  indoor : Bool
  email_sent : Bool
  email_sent_at : Option Int
  push_sent : Bool
  push_sent_at : Option Int
  detected_at : Int
deriving DecidableEq

/-- Row of the `push_tokens` table. -/
structure PushToken where
  user_id : Nat
  token : String
  device_type : String
  is_active : Bool
deriving DecidableEq

/-- The worker-visible database state: the alert store, the club table,
the slot ledger (`detected_slots`) and the push-token table. -/
structure WorkerState where
  alerts : List UserAlert
  clubs : List Club
  slots : List DetectedSlot
  push_tokens : List PushToken
deriving DecidableEq

/-- Modelled from the spec: `BOOST_CONFIG["check_interval_seconds"]` is
imported from `app.core.config`, whose revision in the sources does not
define `BOOST_CONFIG`.  The spec calls it the fixed boost interval
(short, tens of seconds) and the worker's inline comments state
30 seconds. -/
def boost_check_interval_seconds : Nat := 30

/-- The cadence policy `get_check_interval_seconds` of the worker:
30 seconds while a boost is active and unexpired, otherwise
`check_interval_minutes * 60`.  The source reads the clock itself;
here `now` is a parameter. -/
def get_check_interval_seconds (alert : UserAlert) (now : Int) : Nat :=
  if alert.boost_active then
    match alert.boost_expires_at with
    | some expires_at =>
        if expires_at > now then boost_check_interval_seconds
        else alert.check_interval_minutes * 60
    | none => alert.check_interval_minutes * 60
  else alert.check_interval_minutes * 60

/-- The due check inlined in `scheduler_loop` (lines 361-374): an alert
is processed when `last_checked_at` is null or at least the effective
interval has elapsed since it. -/
def is_due (alert : UserAlert) (now : Int) : Bool :=
  match alert.last_checked_at with
  | none => true
  | some last => decide (now - last ≥ (get_check_interval_seconds alert now : Int))

/-- Spec-side cadence predicate, for the refinement comparison of C4.
Follows the spec's words: the boost governs when `boost_active` and
`boost_expiry > now`. -/
def boost_governs_spec (alert : UserAlert) (now : Int) : Bool :=
  alert.boost_active &&
    (match alert.boost_expires_at with
     | some e => decide (e > now)
     | none => false)

/-- Spec-side effective interval, for the refinement comparison of C4.
Follows the spec's words: the fixed boost interval while the boost
governs, otherwise the base interval. -/
def effective_interval_spec (alert : UserAlert) (now : Int) : Nat :=
  if boost_governs_spec alert now then boost_check_interval_seconds
  else alert.check_interval_minutes * 60

/-- Outcomes of the external collaborators consulted by
`send_notification`: the result of `get_user_info` (e-mail and name, or
a failed lookup), the result of `send_slot_notification` (e-mail
channel), and the per-token result of `send_slot_push_notification`
(push channel; that function catches its own exceptions and returns a
boolean). -/
structure NotifyEnv where
  user_info : Option (String × String)
  email_ok : Bool
  push_ok : String → Bool

/-- Observable outcome of one `send_notification` call: the updated
`DetectedSlot` row, whether an e-mail send was attempted, the tokens to
which a push send was attempted, and the boolean return value
(`notifications_sent > 0`). -/
structure NotifyResult where
  slot : DetectedSlot
  email_attempted : Bool
  push_attempted : List String
  sent : Bool

/-- The notification dispatcher `send_notification` (worker lines
104-152): e-mail first (on success flip `email_sent` and stamp
`email_sent_at`), then one push per active token of the user; the
return value is whether any send succeeded.  The source never writes
`push_sent` / `push_sent_at`. -/
def send_notification (nenv : NotifyEnv) (now : Int) (club_name : String)
    (slot : Slot) (user_id : Nat) (all_tokens : List PushToken)
    (d : DetectedSlot) : NotifyResult :=
  let emailPart :
      DetectedSlot × Nat :=
    match nenv.user_info with
    | some _ =>
        if nenv.email_ok then
          ({ d with email_sent := true, email_sent_at := some now }, 1)
        else (d, 0)
    | none => (d, 0)
  let push_tokens := all_tokens.filter (fun pt =>
    pt.user_id == user_id && pt.is_active)
  let pushCount := (push_tokens.filter (fun pt => nenv.push_ok pt.token)).length
  { slot := emailPart.1
    email_attempted := nenv.user_info.isSome
    push_attempted := push_tokens.map (fun pt => pt.token)
    sent := decide (emailPart.2 + pushCount > 0) }

/-- The deduplication key of the slot ledger:
(alert id, playground id, date, start time). -/
abbrev SlotKey := Nat × Nat × Int × Nat

/-- Key of a fetched slot for a given alert. -/
def fetchedKey (aid : Nat) (s : Slot) : SlotKey :=
  (aid, s.playground_id, s.date, s.start_time)

/-- Key of a ledger row. -/
def ledgerKey (d : DetectedSlot) : SlotKey :=
  (d.alert_id, d.playground_id, d.date, d.start_time)

/-- The per-slot existence query of `process_alert` (lines 219-230). -/
def keyExists (ledger : List DetectedSlot) (k : SlotKey) : Bool :=
  ledger.any (fun d => decide (ledgerKey d = k))

/-- The `DetectedSlot` row built for a newly observed slot
(worker lines 234-244); notification flags start false and
`detected_at` takes the server default. -/
def mkDetectedSlot (alert : UserAlert) (club : Club) (now : Int)
    (s : Slot) : DetectedSlot :=
  { alert_id := alert.id
    club_id := club.id
    playground_id := s.playground_id
    playground_name := s.playground_name
    date := s.date
    start_time := s.start_time
    duration_minutes := s.duration_minutes
    price_total := s.price_total
    indoor := s.indoor
    email_sent := false
    email_sent_at := none
    push_sent := false
    push_sent_at := none
    detected_at := now }

/-- Accumulated outcome of the per-slot loop of `process_alert`. -/
structure SlotsOutcome where
  ledger : List DetectedSlot
  notified : List SlotKey
  sent : Nat
  newSlots : Nat

/-- The per-slot loop of `process_alert` (lines 215-255): skip a slot
whose key already exists in the ledger (including rows added earlier in
the same cycle, which the session flushes before each query); otherwise
insert a row, and — only when the baseline is already established —
invoke the notification dispatcher on it.  `notified` records the keys
for which a dispatch was attempted. -/
def process_slots (nenv : NotifyEnv) (now : Int) (alert : UserAlert)
    (club : Club) (all_tokens : List PushToken) (is_baseline : Bool) :
    List Slot → List DetectedSlot → SlotsOutcome
  | [], ledger => ⟨ledger, [], 0, 0⟩
  | s :: rest, ledger =>
    if keyExists ledger (fetchedKey alert.id s) then
      process_slots nenv now alert club all_tokens is_baseline rest ledger
    else
      let d := mkDetectedSlot alert club now s
      if is_baseline then
        let o := process_slots nenv now alert club all_tokens is_baseline rest
          (ledger ++ [d])
        ⟨o.ledger, o.notified, o.sent, o.newSlots + 1⟩
      else
        let r := send_notification nenv now club.name s alert.user_id all_tokens d
        let o := process_slots nenv now alert club all_tokens is_baseline rest
          (ledger ++ [r.slot])
        ⟨o.ledger, fetchedKey alert.id s :: o.notified,
          (if r.sent then 1 else 0) + o.sent, o.newSlots + 1⟩

/-- The `stats` dict of `process_alert`. -/
structure Stats where
  new_slots : Nat
  notifications_sent : Nat
  errors : Nat
deriving DecidableEq

/-- Result of one `process_alert` call: the committed database state,
the returned stats, and the keys for which a notification dispatch was
attempted (the observable side-effect trace). -/
structure ProcessResult where
  state : WorkerState
  stats : Stats
  notified : List SlotKey

/-- Alert lookup by id (worker lines 163-166). -/
def find_alert (st : WorkerState) (aid : Nat) : Option UserAlert :=
  st.alerts.find? (fun a => a.id == aid)

/-- Club lookup by id (worker line 186). -/
def find_club (st : WorkerState) (cid : Nat) : Option Club :=
  st.clubs.find? (fun c => c.id == cid)

/-- Writing one mutated alert row back to the alert table. -/
def update_alert (alerts : List UserAlert) (a : UserAlert) :
    List UserAlert :=
  alerts.map (fun b => if b.id = a.id then a else b)

/-- The alert-row mutations committed at the end of a successful cycle
(worker lines 257-263): mark the baseline established when this cycle
was the baseline one, and stamp `last_checked_at`. -/
def finish_alert (now : Int) (alert : UserAlert) : UserAlert :=
  { alert with
    baseline_scraped :=
      if !alert.baseline_scraped then true else alert.baseline_scraped
    last_checked_at := some now }

/-- One cycle of the alert processor `process_alert` (worker lines
155-273).  `fetch` is the availability-provider outcome (`none` models
a raised exception, after which the session is discarded uncommitted,
so the state is unchanged and only the error counter moves).  All other
paths commit exactly once at the end of the cycle. -/
def process_alert (nenv : NotifyEnv) (fetch : Option (List Slot))
    (now today : Int) (aid : Nat) (st : WorkerState) : ProcessResult :=
  match find_alert st aid with
  | none => ⟨st, ⟨0, 0, 0⟩, []⟩
  | some alert =>
    if alert.is_active = false then ⟨st, ⟨0, 0, 0⟩, []⟩
    else if alert.target_date < today then
      let a := { alert with is_active := false, boost_active := false }
      ⟨{ st with alerts := update_alert st.alerts a }, ⟨0, 0, 0⟩, []⟩
    else
      match find_club st alert.club_id with
      | none => ⟨st, ⟨0, 0, 1⟩, []⟩
      | some club =>
        match fetch with
        | none => ⟨st, ⟨0, 0, 1⟩, []⟩
        | some slots =>
          let is_baseline := !alert.baseline_scraped
          let o := process_slots nenv now alert club st.push_tokens
            is_baseline slots st.slots
          let alerts2 := update_alert st.alerts (finish_alert now alert)
          ⟨{ st with alerts := alerts2, slots := o.ledger },
            ⟨o.newSlots, o.sent, 0⟩, o.notified⟩

/-- Boost expiry on one alert row, as selected and mutated by
`expire_boosts` (worker lines 73-101): rows with `boost_active` and a
non-null `boost_expires_at` strictly before now are flipped off. -/
def expire_boosts_alert (now : Int) (a : UserAlert) : UserAlert :=
  if a.boost_active &&
      (match a.boost_expires_at with
       | some e => decide (e < now)
       | none => false) then
    { a with
      boost_active := false
      boost_expires_at := none
      updated_at := now }
  else a

/-- The `expire_boosts` sweep over the alert table; it commits on its
own. -/
def expire_boosts (now : Int) (st : WorkerState) : WorkerState :=
  { st with alerts := st.alerts.map (expire_boosts_alert now) }

/-- Deactivation of one expired alert row, as selected and mutated by
step 2 of `cleanup_expired_data` (worker lines 287-300). -/
def deactivate_expired_alert (today : Int) (a : UserAlert) : UserAlert :=
  if decide (a.target_date < today) && a.is_active then
    { a with is_active := false, boost_active := false }
  else a

/-- The Reclaimer `cleanup_expired_data` (worker lines 276-311), with
its transaction structure made explicit: `expire_boosts` commits on its
own; the deactivation pass and the pruning delete share the final
commit, so when the pruning delete raises (`prune_fails`), the pending
deactivations are rolled back and only the boost expiry survives. -/
def cleanup_expired_data_run (prune_fails : Bool) (now today : Int)
    (st : WorkerState) : WorkerState :=
  let st1 := expire_boosts now st
  if prune_fails then st1
  else
    let st2 := { st1 with
      alerts := st1.alerts.map (deactivate_expired_alert today) }
    { st2 with
      slots := st2.slots.filter (fun d => !decide (d.date < today - 7)) }

/-- The Reclaimer sweep on its success path. -/
def cleanup_expired_data (now today : Int) (st : WorkerState) :
    WorkerState :=
  cleanup_expired_data_run false now today st

/-- One iteration of `scheduler_loop` (worker lines 325-409): expire
boosts, select the active alerts with an unexpired target date, and
process each due one in order.  `fetches` gives the provider outcome
per alert id. -/
def scheduler_tick (nenv : NotifyEnv) (fetches : Nat → Option (List Slot))
    (now today : Int) (st : WorkerState) : WorkerState :=
  let st1 := expire_boosts now st
  let selected := st1.alerts.filter (fun a =>
    a.is_active && decide (a.target_date ≥ today))
  (selected.filter (fun a => is_due a now)).foldl
    (fun s a => (process_alert nenv (fetches a.id) now today a.id s).state)
    st1

/-! Sample records used by witnesses and counterexamples. -/

/-- A concrete club record. -/
def club_base : Club := { id := 2, doinsport_id := 9, name := "Padel" }

/-- A concrete alert record. -/
def alert_base : UserAlert :=
  { id := 1
    user_id := 7
    club_id := 2
    target_date := 100
    time_from := 1080
    time_to := 1200
    indoor_only := none
    is_active := true
    check_interval_minutes := 3
    baseline_scraped := false
    last_checked_at := none
    boost_active := false
    boost_expires_at := none
    updated_at := 0 }

/-- The alert of the spec's boost-cadence scenario, placed at `now = 0`:
`boost_active`, `boost_expiry = +10 s`, base interval 180 s,
`last_checked = -20 s`. -/
def c5_alert : UserAlert :=
  { alert_base with
    boost_active := true
    boost_expires_at := some 10
    check_interval_minutes := 3
    last_checked_at := some (-20) }

/-- A concrete fetched slot. -/
def slot_a : Slot :=
  { playground_id := 3
    playground_name := "A"
    date := 99
    start_time := 1110
    duration_minutes := 60
    price_total := 30
    indoor := true }

/-- A second concrete fetched slot with a different key. -/
def slot_b : Slot :=
  { playground_id := 4
    playground_name := "B"
    date := 99
    start_time := 1140
    duration_minutes := 60
    price_total := 30
    indoor := false }

/-- A concrete active push token of the sample user. -/
def token_base : PushToken :=
  { user_id := 7, token := "tok1", device_type := "ios", is_active := true }

/-- Notification environment in which every external send succeeds. -/
def nenv_ok : NotifyEnv :=
  { user_info := some ("u@example.com", "U")
    email_ok := true
    push_ok := fun _ => true }

/-- Notification environment in which the user lookup fails and every
push send succeeds. -/
def nenv_push_only : NotifyEnv :=
  { user_info := none
    email_ok := false
    push_ok := fun _ => true }

/-- A concrete ledger row derived from `slot_a`. -/
def row_a : DetectedSlot := mkDetectedSlot alert_base club_base 0 slot_a

/-- Repeated invocations of the alert processor for one alert: the
committed state threads from cycle to cycle and the notification
attempts accumulate. -/
def run_cycles (nenv : NotifyEnv) (now today : Int) (aid : Nat) :
    List (Option (List Slot)) → WorkerState → WorkerState × List SlotKey
  | [], st => (st, [])
  | f :: rest, st =>
    let r := process_alert nenv f now today aid st
    let next := run_cycles nenv now today aid rest r.state
    (next.1, r.notified ++ next.2)

/-- Monotonicity of the baseline flag between two alert tables,
matching rows by alert id: a row whose baseline is established never
reverts. -/
def baseline_mono (l l2 : List UserAlert) : Prop :=
  ∀ a ∈ l, ∀ a2 ∈ l2, a2.id = a.id → a.baseline_scraped = true →
    a2.baseline_scraped = true

/-- A worker state with one fresh active alert, its club, an empty
ledger and one active push token. -/
def st_base : WorkerState :=
  { alerts := [alert_base]
    clubs := [club_base]
    slots := []
    push_tokens := [token_base] }

/-- An alert whose target date (day 5) lies before today (day 10) but
which is still active, with a boost flag still set far in the
future. -/
def alert_expired : UserAlert :=
  { alert_base with
    target_date := 5
    boost_active := true
    boost_expires_at := some 1000 }

/-- Worker state holding the expired-but-active alert and one ledger
row far older than the retention window. -/
def st_expired : WorkerState :=
  { st_base with
    alerts := [alert_expired]
    slots := [{ row_a with date := 1 }] }

/-- Ledger row dated eight days before day 10. -/
def row_old8 : DetectedSlot := { row_a with date := 2 }

/-- Ledger row dated six days before day 10. -/
def row_old6 : DetectedSlot := { row_a with date := 4 }

/-- Worker state holding the two retention-window sample rows. -/
def st_rows : WorkerState := { st_base with slots := [row_old8, row_old6] }

/-- The sample alert with its baseline already established. -/
def alert_done : UserAlert := { alert_base with baseline_scraped := true }

/-- Worker state holding the baseline-established sample alert. -/
def st_done : WorkerState := { st_base with alerts := [alert_done] }

/-! Basic lemmas about keys, lookups and updates. -/

theorem ledgerKey_mk (alert : UserAlert) (club : Club) (now : Int)
    (s : Slot) : ledgerKey (mkDetectedSlot alert club now s) =
      fetchedKey alert.id s := rfl

theorem ledgerKey_send (nenv : NotifyEnv) (now : Int) (cn : String)
    (s : Slot) (uid : Nat) (toks : List PushToken) (d : DetectedSlot) :
    ledgerKey (send_notification nenv now cn s uid toks d).slot =
      ledgerKey d := by
  cases h : nenv.user_info <;>
    simp [send_notification, h, ledgerKey] <;> split <;> simp

theorem keyExists_append (l1 l2 : List DetectedSlot) (k : SlotKey) :
    keyExists (l1 ++ l2) k = (keyExists l1 k || keyExists l2 k) := by
  simp [keyExists, List.any_append]

theorem keyExists_eq_false_iff (l : List DetectedSlot) (k : SlotKey) :
    keyExists l k = false ↔ ∀ d ∈ l, ledgerKey d ≠ k := by
  simp [keyExists]

theorem keyExists_eq_true_iff (l : List DetectedSlot) (k : SlotKey) :
    keyExists l k = true ↔ ∃ d ∈ l, ledgerKey d = k := by
  simp [keyExists]

theorem find_alert_id (st : WorkerState) (aid : Nat) (a : UserAlert)
    (h : find_alert st aid = some a) : a.id = aid := by
  have := List.find?_some h
  simpa using this

/-! C4: effective check interval. -/

/-- C4: for every alert and time, the worker's
`get_check_interval_seconds` equals the fixed boost interval exactly
when `boost_active` holds and the boost expiry lies strictly in the
future, and the base interval in minutes times 60 otherwise; in
particular, once `now` has reached the expiry, the base interval is
returned even while `boost_active` is still set. -/
theorem C4_effective_interval (alert : UserAlert) (now : Int) :
    get_check_interval_seconds alert now = effective_interval_spec alert now ∧
    (∀ e, alert.boost_expires_at = some e → now ≥ e →
      get_check_interval_seconds alert now =
        alert.check_interval_minutes * 60) := by
  constructor
  · cases hb : alert.boost_active <;> cases he : alert.boost_expires_at <;>
      simp [get_check_interval_seconds, effective_interval_spec,
        boost_governs_spec, hb, he]
  · intro e he hnow
    cases hb : alert.boost_active <;>
      simp [get_check_interval_seconds, hb, he] <;> omega

/-- Witness for C4, applying it to a boosted alert whose expiry has
passed. -/
theorem C4_effective_interval_witness :
    get_check_interval_seconds
      ({ c5_alert with boost_expires_at := some 10 }) 15 =
      ({ c5_alert with boost_expires_at := some 10 }).check_interval_minutes
        * 60 :=
  (C4_effective_interval ({ c5_alert with boost_expires_at := some 10 }) 15).2
    10 rfl (by decide)

/-! C5: the due check. -/

/-- C5 counterexample: in the spec's concrete boost scenario the claim
says `is_due` at `now + 5 s` returns true, but only 25 s have elapsed
since `last_checked` while the boost interval is 30 s, so the worker's
due check returns false. -/
theorem C5_counterexample : ¬ is_due c5_alert 5 = true := by decide

/-- C5 (amended): `is_due` is true iff `last_checked` is null or the
effective interval has elapsed; in the spec's concrete boost scenario,
`is_due` at `now + 5 s` returns false (only 25 s of the 30 s boost
interval have elapsed) and at `now + 15 s` (post-expiry) returns false
as well, the base interval not having elapsed. -/
theorem C5_is_due (alert : UserAlert) (now : Int) :
    (is_due alert now = true ↔
      alert.last_checked_at = none ∨
        ∃ last, alert.last_checked_at = some last ∧
          now - last ≥ (get_check_interval_seconds alert now : Int)) ∧
    is_due c5_alert 5 = false ∧ is_due c5_alert 15 = false := by
  refine ⟨?_, by decide, by decide⟩
  cases h : alert.last_checked_at <;> simp [is_due, h]

/-! C9: retention window of the pruning sweep. -/

/-- C9: the Reclaimer's pruning deletes exactly the ledger rows whose
slot date is more than 7 days before today; a row dated `today - 8`
is removed and a row dated `today - 6` is retained. -/
theorem C9_retention (now today : Int) (st : WorkerState) :
    (∀ d, d ∈ (cleanup_expired_data now today st).slots ↔
      d ∈ st.slots ∧ today - d.date ≤ 7) ∧
    (∀ d, d ∈ st.slots → d.date = today - 8 →
      d ∉ (cleanup_expired_data now today st).slots) ∧
    (∀ d, d ∈ st.slots → d.date = today - 6 →
      d ∈ (cleanup_expired_data now today st).slots) := by
  have hmem : ∀ d, d ∈ (cleanup_expired_data now today st).slots ↔
      d ∈ st.slots ∧ today - d.date ≤ 7 := by
    intro d
    simp only [cleanup_expired_data, cleanup_expired_data_run,
      expire_boosts, if_neg Bool.false_ne_true, List.mem_filter]
    constructor
    · rintro ⟨h1, h2⟩
      refine ⟨h1, ?_⟩
      simp at h2
      omega
    · rintro ⟨h1, h2⟩
      refine ⟨h1, ?_⟩
      simp
      omega
  refine ⟨hmem, ?_, ?_⟩
  · intro d hd hdate hcontra
    have := (hmem d).1 hcontra
    omega
  · intro d hd hdate
    exact (hmem d).2 ⟨hd, by omega⟩

/-! C3: the notification dispatcher. -/

/-- C3 counterexample: with a failed user lookup and one active push
token whose send succeeds, `send_notification` returns true (a push
succeeded), yet the DetectedSlot row's `push_sent` flag stays false
and its timestamp stays null — the worker never records push success
on the row, refuting the claim that each push endpoint's success is
recorded on the DetectedSlot. -/
theorem C3_counterexample :
    (send_notification nenv_push_only 0 "c" slot_a 7 [token_base]
      row_a).sent = true ∧
    (send_notification nenv_push_only 0 "c" slot_a 7 [token_base]
      row_a).slot.push_sent = false ∧
    (send_notification nenv_push_only 0 "c" slot_a 7 [token_base]
      row_a).slot.push_sent_at = none := by
  refine ⟨rfl, rfl, rfl⟩

/-- C3 (amended): a successful e-mail send sets the row's `email_sent`
flag with a timestamp; push sends are attempted on every currently
active endpoint of the owner and no single endpoint failure prevents
the other attempts or the e-mail channel, but push successes are only
counted toward the return value — the row's `push_sent` flag and
timestamp are never written; the return value is true iff at least one
channel succeeded on at least one endpoint. -/
theorem C3_send_notification (nenv : NotifyEnv) (now : Int) (cn : String)
    (s : Slot) (uid : Nat) (toks : List PushToken) (d : DetectedSlot) :
    (nenv.user_info.isSome = true → nenv.email_ok = true →
      (send_notification nenv now cn s uid toks d).slot.email_sent = true ∧
      (send_notification nenv now cn s uid toks d).slot.email_sent_at =
        some now) ∧
    (send_notification nenv now cn s uid toks d).slot.push_sent =
      d.push_sent ∧
    (send_notification nenv now cn s uid toks d).slot.push_sent_at =
      d.push_sent_at ∧
    (send_notification nenv now cn s uid toks d).email_attempted =
      nenv.user_info.isSome ∧
    (send_notification nenv now cn s uid toks d).push_attempted =
      (toks.filter (fun pt => pt.user_id == uid && pt.is_active)).map
        (fun pt => pt.token) ∧
    ((send_notification nenv now cn s uid toks d).sent = true ↔
      (nenv.user_info.isSome = true ∧ nenv.email_ok = true) ∨
      ∃ pt ∈ toks.filter (fun pt => pt.user_id == uid && pt.is_active),
        nenv.push_ok pt.token = true) := by
  cases h : nenv.user_info <;>
    by_cases he : nenv.email_ok <;>
      simp [send_notification, h, he, List.length_eq_zero,
        List.filter_eq_nil_iff, Nat.pos_iff_ne_zero] <;>
    tauto

/-- Witness for C3, applying it with a successful e-mail environment:
the updated row carries the e-mail flag and timestamp. -/
theorem C3_send_notification_witness :
    (send_notification nenv_ok 4 "c" slot_a 7 [token_base]
      row_a).slot.email_sent = true ∧
    (send_notification nenv_ok 4 "c" slot_a 7 [token_base]
      row_a).slot.email_sent_at = some 4 :=
  (C3_send_notification nenv_ok 4 "c" slot_a 7 [token_base] row_a).1
    rfl rfl

/-! C6: provider failure leaves the state untouched. -/

/-- C6: when the availability fetch fails during a cycle of an alert
that is found, active, unexpired and resolves its club, the cycle
reports one error and stops: the returned state is exactly the input
state (last-checked timestamp, baseline flag and slot ledger all
unchanged, so the alert is retried at its next regular cadence tick)
and no notification is attempted. -/
theorem C6_fetch_failure (nenv : NotifyEnv) (now today : Int) (aid : Nat)
    (st : WorkerState) (alert : UserAlert) (club : Club)
    (hfa : find_alert st aid = some alert)
    (hact : alert.is_active = true)
    (hdate : ¬ alert.target_date < today)
    (hfc : find_club st alert.club_id = some club) :
    (process_alert nenv none now today aid st).state = st ∧
    (process_alert nenv none now today aid st).stats = ⟨0, 0, 1⟩ ∧
    (process_alert nenv none now today aid st).notified = [] := by
  simp [process_alert, hfa, hact, hdate, hfc]

/-! Lemmas about the per-slot loop of the alert processor. -/

theorem ps_shape (nenv : NotifyEnv) (now : Int) (alert : UserAlert)
    (club : Club) (toks : List PushToken) (b : Bool) (slots : List Slot) :
    ∀ ledger : List DetectedSlot, ∃ ext,
      (process_slots nenv now alert club toks b slots ledger).ledger =
        ledger ++ ext := by
  induction slots with
  | nil => intro ledger; exact ⟨[], by simp [process_slots]⟩
  | cons s rest ih =>
    intro ledger
    by_cases hk : keyExists ledger (fetchedKey alert.id s) = true
    · simpa [process_slots, hk] using ih ledger
    · cases b
      · obtain ⟨ext, hext⟩ := ih (ledger ++
          [(send_notification nenv now club.name s alert.user_id toks
            (mkDetectedSlot alert club now s)).slot])
        refine ⟨(send_notification nenv now club.name s alert.user_id toks
          (mkDetectedSlot alert club now s)).slot :: ext, ?_⟩
        simp [process_slots, hk, hext]
      · obtain ⟨ext, hext⟩ := ih (ledger ++ [mkDetectedSlot alert club now s])
        refine ⟨mkDetectedSlot alert club now s :: ext, ?_⟩
        simp [process_slots, hk, hext]

theorem ps_keyExists_mono (nenv : NotifyEnv) (now : Int) (alert : UserAlert)
    (club : Club) (toks : List PushToken) (b : Bool) (slots : List Slot)
    (ledger : List DetectedSlot) (k : SlotKey)
    (h : keyExists ledger k = true) :
    keyExists (process_slots nenv now alert club toks b slots ledger).ledger
      k = true := by
  obtain ⟨ext, hext⟩ := ps_shape nenv now alert club toks b slots ledger
  rw [hext, keyExists_append, h, Bool.true_or]

theorem ps_complete (nenv : NotifyEnv) (now : Int) (alert : UserAlert)
    (club : Club) (toks : List PushToken) (b : Bool) (slots : List Slot) :
    ∀ ledger : List DetectedSlot, ∀ s ∈ slots,
      keyExists (process_slots nenv now alert club toks b slots ledger).ledger
        (fetchedKey alert.id s) = true := by
  induction slots with
  | nil => intro ledger s hs; simp at hs
  | cons s0 rest ih =>
    intro ledger s hs
    by_cases hk : keyExists ledger (fetchedKey alert.id s0) = true
    · rcases List.mem_cons.mp hs with hs | hs
      · subst hs
        simpa [process_slots, hk] using
          ps_keyExists_mono nenv now alert club toks b rest ledger _ hk
      · simpa [process_slots, hk] using ih ledger s hs
    · have hkey : ∀ d : DetectedSlot, ledgerKey d = fetchedKey alert.id s0 →
          keyExists (ledger ++ [d]) (fetchedKey alert.id s0) = true := by
        intro d hd
        rw [keyExists_append, Bool.or_eq_true]
        right
        simp [keyExists, hd]
      rcases List.mem_cons.mp hs with hs | hs
      · subst hs
        cases b
        · have h1 := hkey
            ((send_notification nenv now club.name s alert.user_id toks
              (mkDetectedSlot alert club now s)).slot)
            (by rw [ledgerKey_send, ledgerKey_mk])
          simpa [process_slots, hk] using
            ps_keyExists_mono nenv now alert club toks false rest _ _ h1
        · have h1 := hkey (mkDetectedSlot alert club now s) (ledgerKey_mk _ _ _ _)
          simpa [process_slots, hk] using
            ps_keyExists_mono nenv now alert club toks true rest _ _ h1
      · cases b
        · simpa [process_slots, hk] using ih _ s hs
        · simpa [process_slots, hk] using ih _ s hs

theorem ps_nodup (nenv : NotifyEnv) (now : Int) (alert : UserAlert)
    (club : Club) (toks : List PushToken) (b : Bool) (slots : List Slot) :
    ∀ ledger : List DetectedSlot, (ledger.map ledgerKey).Nodup →
      ((process_slots nenv now alert club toks b slots
        ledger).ledger.map ledgerKey).Nodup := by
  induction slots with
  | nil => intro ledger h; simpa [process_slots] using h
  | cons s rest ih =>
    intro ledger h
    by_cases hk : keyExists ledger (fetchedKey alert.id s) = true
    · simpa [process_slots, hk] using ih ledger h
    · have hfresh : ∀ d ∈ ledger, ledgerKey d ≠ fetchedKey alert.id s :=
        (keyExists_eq_false_iff ledger _).mp (by simpa using hk)
      have happ : ∀ d : DetectedSlot, ledgerKey d = fetchedKey alert.id s →
          ((ledger ++ [d]).map ledgerKey).Nodup := by
        intro d hd
        rw [List.map_append, List.nodup_append]
        refine ⟨h, by simp, ?_⟩
        intro k hkmem
        simp only [List.mem_map] at hkmem
        obtain ⟨d0, hd0, hkd0⟩ := hkmem
        simp [hd]
        intro hcontra
        exact hfresh d0 hd0 (by rw [hkd0, hcontra])
      cases b
      · simpa [process_slots, hk] using ih _
          (happ ((send_notification nenv now club.name s alert.user_id toks
            (mkDetectedSlot alert club now s)).slot)
            (by rw [ledgerKey_send, ledgerKey_mk]))
      · simpa [process_slots, hk] using ih _
          (happ (mkDetectedSlot alert club now s) (ledgerKey_mk _ _ _ _))

theorem ps_notified_spec (nenv : NotifyEnv) (now : Int) (alert : UserAlert)
    (club : Club) (toks : List PushToken) (b : Bool) (slots : List Slot) :
    ∀ ledger : List DetectedSlot,
      (process_slots nenv now alert club toks b slots
        ledger).notified.Nodup ∧
      ∀ k ∈ (process_slots nenv now alert club toks b slots
          ledger).notified,
        keyExists ledger k = false ∧
        keyExists (process_slots nenv now alert club toks b slots
          ledger).ledger k = true := by
  induction slots with
  | nil => intro ledger; simp [process_slots]
  | cons s rest ih =>
    intro ledger
    by_cases hk : keyExists ledger (fetchedKey alert.id s) = true
    · simpa [process_slots, hk] using ih ledger
    · cases b
      · set d := (send_notification nenv now club.name s alert.user_id toks
          (mkDetectedSlot alert club now s)).slot with hd
        have hdkey : ledgerKey d = fetchedKey alert.id s := by
          rw [hd, ledgerKey_send, ledgerKey_mk]
        have hin : keyExists (ledger ++ [d]) (fetchedKey alert.id s) = true := by
          rw [keyExists_append, Bool.or_eq_true]
          right
          simp [keyExists, hdkey]
        obtain ⟨ihnd, ihspec⟩ := ih (ledger ++ [d])
        constructor
        · simp only [process_slots, hk, if_neg hk]
          refine List.Nodup.cons ?_ ihnd
          intro hmem
          have := (ihspec _ hmem).1
          rw [hin] at this
          exact absurd this (by simp)
        · intro k hkmem
          simp only [process_slots, if_neg hk] at hkmem
          rcases List.mem_cons.mp hkmem with hkk | hkk
          · subst hkk
            refine ⟨by simpa using hk, ?_⟩
            simp only [process_slots, if_neg hk]
            exact ps_keyExists_mono nenv now alert club toks false rest _ _ hin
          · obtain ⟨h1, h2⟩ := ihspec k hkk
            refine ⟨?_, ?_⟩
            · rw [keyExists_append] at h1
              simpa using (Bool.or_eq_false_iff.mp h1).1
            · simpa [process_slots, if_neg hk] using h2
      · obtain ⟨ihnd, ihspec⟩ := ih (ledger ++ [mkDetectedSlot alert club now s])
        constructor
        · simpa [process_slots, hk] using ihnd
        · intro k hkmem
          simp only [process_slots, if_neg hk] at hkmem
          obtain ⟨h1, h2⟩ := ihspec k hkmem
          refine ⟨?_, ?_⟩
          · rw [keyExists_append] at h1
            simpa using (Bool.or_eq_false_iff.mp h1).1
          · simpa [process_slots, if_neg hk] using h2

theorem ps_stable (nenv : NotifyEnv) (now : Int) (alert : UserAlert)
    (club : Club) (toks : List PushToken) (b : Bool) (slots : List Slot) :
    ∀ ledger : List DetectedSlot,
      (∀ s ∈ slots, keyExists ledger (fetchedKey alert.id s) = true) →
      process_slots nenv now alert club toks b slots ledger =
        ⟨ledger, [], 0, 0⟩ := by
  induction slots with
  | nil => intro ledger _; simp [process_slots]
  | cons s rest ih =>
    intro ledger hall
    have hk : keyExists ledger (fetchedKey alert.id s) = true :=
      hall s (List.mem_cons_self s rest)
    rw [process_slots, if_pos hk]
    exact ih ledger (fun s0 hs0 => hall s0 (List.mem_cons_of_mem s hs0))

theorem ps_baseline (nenv : NotifyEnv) (now : Int) (alert : UserAlert)
    (club : Club) (toks : List PushToken) (slots : List Slot) :
    ∀ ledger : List DetectedSlot,
      (process_slots nenv now alert club toks true slots
        ledger).notified = [] ∧
      (process_slots nenv now alert club toks true slots
        ledger).sent = 0 := by
  induction slots with
  | nil => intro ledger; simp [process_slots]
  | cons s rest ih =>
    intro ledger
    by_cases hk : keyExists ledger (fetchedKey alert.id s) = true
    · simpa [process_slots, hk] using ih ledger
    · simpa [process_slots, hk] using
        ih (ledger ++ [mkDetectedSlot alert club now s])

/-! Lemmas about alert lookup and write-back. -/

theorem find_update (l : List UserAlert) (aid : Nat) (alert a : UserAlert)
    (h : l.find? (fun b => b.id == aid) = some alert)
    (hid : a.id = alert.id) :
    (update_alert l a).find? (fun b => b.id == aid) = some a := by
  induction l with
  | nil => simp at h
  | cons x xs ih =>
    have haid : alert.id = aid := by
      have := List.find?_some h
      simpa using this
    by_cases hx : (x.id == aid) = true
    · have hax : alert = x := by
        rw [List.find?_cons, hx] at h
        simpa using h.symm
      have hxa : x.id = a.id := by
        rw [hid, hax]
      have hbeq : (a.id == aid) = true := by
        simp [hid, haid]
      simp only [update_alert, List.map_cons, if_pos hxa]
      rw [List.find?_cons]
      simp [hbeq]
    · have hxf : (x.id == aid) = false := by
        simpa using hx
      have hrest : xs.find? (fun b => b.id == aid) = some alert := by
        rw [List.find?_cons] at h
        simpa [hxf] using h
      have hxna : ¬ x.id = a.id := by
        intro hcontra
        rw [hid, haid] at hcontra
        simp [hcontra] at hxf
      simp only [update_alert, List.map_cons, if_neg hxna]
      rw [List.find?_cons, hxf]
      exact ih hrest

theorem pa_processing (nenv : NotifyEnv) (slots : List Slot)
    (now today : Int) (aid : Nat) (st : WorkerState) (alert : UserAlert)
    (club : Club)
    (hfa : find_alert st aid = some alert)
    (hact : alert.is_active = true)
    (hdate : ¬ alert.target_date < today)
    (hfc : find_club st alert.club_id = some club) :
    process_alert nenv (some slots) now today aid st =
      ⟨{ st with
          alerts := update_alert st.alerts (finish_alert now alert)
          slots := (process_slots nenv now alert club st.push_tokens
            (!alert.baseline_scraped) slots st.slots).ledger },
        ⟨(process_slots nenv now alert club st.push_tokens
            (!alert.baseline_scraped) slots st.slots).newSlots,
          (process_slots nenv now alert club st.push_tokens
            (!alert.baseline_scraped) slots st.slots).sent, 0⟩,
        (process_slots nenv now alert club st.push_tokens
          (!alert.baseline_scraped) slots st.slots).notified⟩ := by
  simp [process_alert, hfa, hact, hdate, hfc]

theorem pa_slots_cases (nenv : NotifyEnv) (fetch : Option (List Slot))
    (now today : Int) (aid : Nat) (st : WorkerState) :
    ((process_alert nenv fetch now today aid st).state.slots = st.slots ∧
      (process_alert nenv fetch now today aid st).notified = []) ∨
    ∃ alert club slots,
      find_alert st aid = some alert ∧ alert.is_active = true ∧
      ¬ alert.target_date < today ∧
      find_club st alert.club_id = some club ∧ fetch = some slots ∧
      (process_alert nenv fetch now today aid st).state.slots =
        (process_slots nenv now alert club st.push_tokens
          (!alert.baseline_scraped) slots st.slots).ledger ∧
      (process_alert nenv fetch now today aid st).notified =
        (process_slots nenv now alert club st.push_tokens
          (!alert.baseline_scraped) slots st.slots).notified := by
  cases hfa : find_alert st aid with
  | none => left; simp [process_alert, hfa]
  | some alert =>
    by_cases hact : alert.is_active = false
    · left; simp [process_alert, hfa, hact]
    · have hact2 : alert.is_active = true := by
        simpa using hact
      by_cases hdate : alert.target_date < today
      · left; simp [process_alert, hfa, hact, hdate]
      · cases hfc : find_club st alert.club_id with
        | none => left; simp [process_alert, hfa, hact, hdate, hfc]
        | some club =>
          cases fetch with
          | none => left; simp [process_alert, hfa, hact, hdate, hfc]
          | some slots =>
            right
            refine ⟨alert, club, slots, rfl, hact2, hdate, hfc, rfl, ?_, ?_⟩
            all_goals
              rw [pa_processing nenv slots now today aid st alert club hfa
                hact2 hdate hfc]

theorem pa_keyExists_mono (nenv : NotifyEnv) (fetch : Option (List Slot))
    (now today : Int) (aid : Nat) (st : WorkerState) (k : SlotKey)
    (h : keyExists st.slots k = true) :
    keyExists (process_alert nenv fetch now today aid st).state.slots k =
      true := by
  rcases pa_slots_cases nenv fetch now today aid st with
    ⟨hs, _⟩ | ⟨alert, club, slots, _, _, _, _, _, hs, _⟩
  · rw [hs]; exact h
  · rw [hs]; exact ps_keyExists_mono nenv now alert club st.push_tokens
      (!alert.baseline_scraped) slots st.slots k h

theorem pa_nodup (nenv : NotifyEnv) (fetch : Option (List Slot))
    (now today : Int) (aid : Nat) (st : WorkerState)
    (h : (st.slots.map ledgerKey).Nodup) :
    ((process_alert nenv fetch now today aid
      st).state.slots.map ledgerKey).Nodup := by
  rcases pa_slots_cases nenv fetch now today aid st with
    ⟨hs, _⟩ | ⟨alert, club, slots, _, _, _, _, _, hs, _⟩
  · rw [hs]; exact h
  · rw [hs]; exact ps_nodup nenv now alert club st.push_tokens
      (!alert.baseline_scraped) slots st.slots h

theorem pa_notified_spec (nenv : NotifyEnv) (fetch : Option (List Slot))
    (now today : Int) (aid : Nat) (st : WorkerState) :
    (process_alert nenv fetch now today aid st).notified.Nodup ∧
    ∀ k ∈ (process_alert nenv fetch now today aid st).notified,
      keyExists st.slots k = false ∧
      keyExists (process_alert nenv fetch now today aid st).state.slots k =
        true := by
  rcases pa_slots_cases nenv fetch now today aid st with
    ⟨hs, hn⟩ | ⟨alert, club, slots, _, _, _, _, _, hs, hn⟩
  · rw [hn]; simp
  · rw [hn, hs]
    exact ps_notified_spec nenv now alert club st.push_tokens
      (!alert.baseline_scraped) slots st.slots

theorem rc_keyExists_mono (nenv : NotifyEnv) (now today : Int) (aid : Nat) :
    ∀ (fetches : List (Option (List Slot))) (st : WorkerState) (k : SlotKey),
      keyExists st.slots k = true →
      keyExists (run_cycles nenv now today aid fetches st).1.slots k =
        true := by
  intro fetches
  induction fetches with
  | nil => intro st k h; simpa [run_cycles] using h
  | cons f rest ih =>
    intro st k h
    simpa [run_cycles] using
      ih (process_alert nenv f now today aid st).state k
        (pa_keyExists_mono nenv f now today aid st k h)

theorem rc_inv (nenv : NotifyEnv) (now today : Int) (aid : Nat) :
    ∀ (fetches : List (Option (List Slot))) (st : WorkerState),
      (st.slots.map ledgerKey).Nodup →
      (((run_cycles nenv now today aid fetches st).1.slots.map
        ledgerKey).Nodup ∧
       (run_cycles nenv now today aid fetches st).2.Nodup ∧
       ∀ k ∈ (run_cycles nenv now today aid fetches st).2,
         keyExists st.slots k = false ∧
         keyExists (run_cycles nenv now today aid fetches st).1.slots k =
           true) := by
  intro fetches
  induction fetches with
  | nil => intro st h; simp [run_cycles, h]
  | cons f rest ih =>
    intro st hnd
    obtain ⟨hnotnd, hfresh⟩ := pa_notified_spec nenv f now today aid st
    obtain ⟨ihnd, ihnotnd, ihspec⟩ :=
      ih (process_alert nenv f now today aid st).state
        (pa_nodup nenv f now today aid st hnd)
    refine ⟨by simpa [run_cycles] using ihnd, ?_, ?_⟩
    · simp only [run_cycles]
      refine List.Nodup.append hnotnd ihnotnd ?_
      intro k hk1 hk2
      have h1 := (hfresh k hk1).2
      have h2 := (ihspec k hk2).1
      rw [h1] at h2
      exact absurd h2 (by simp)
    · intro k hk
      simp only [run_cycles, List.mem_append] at hk
      rcases hk with hk | hk
      · obtain ⟨h1, h2⟩ := hfresh k hk
        refine ⟨h1, ?_⟩
        simpa [run_cycles] using
          rc_keyExists_mono nenv now today aid rest
            (process_alert nenv f now today aid st).state k h2
      · obtain ⟨h1, h2⟩ := ihspec k hk
        refine ⟨?_, by simpa [run_cycles] using h2⟩
        by_cases hst : keyExists st.slots k = true
        · rw [pa_keyExists_mono nenv f now today aid st k hst] at h1
          exact absurd h1 (by simp)
        · simpa using hst

theorem finish_alert_id (now : Int) (alert : UserAlert) :
    (finish_alert now alert).id = alert.id := rfl

theorem finish_alert_baseline (now : Int) (alert : UserAlert) :
    (finish_alert now alert).baseline_scraped = true := by
  cases h : alert.baseline_scraped <;> simp [finish_alert, h]

theorem pa_two_run (nenv : NotifyEnv) (slots : List Slot) (now today : Int)
    (aid : Nat) (st : WorkerState) (alert : UserAlert) (club : Club)
    (hfa : find_alert st aid = some alert)
    (hact : alert.is_active = true)
    (hdate : ¬ alert.target_date < today)
    (hfc : find_club st alert.club_id = some club) :
    (process_alert nenv (some slots) now today aid
      (process_alert nenv (some slots) now today aid
        st).state).state.slots =
      (process_alert nenv (some slots) now today aid st).state.slots ∧
    (process_alert nenv (some slots) now today aid
      (process_alert nenv (some slots) now today aid
        st).state).notified = [] := by
  rw [pa_processing nenv slots now today aid st alert club hfa hact hdate hfc]
  set st1 : WorkerState := { st with
    alerts := update_alert st.alerts (finish_alert now alert)
    slots := (process_slots nenv now alert club st.push_tokens
      (!alert.baseline_scraped) slots st.slots).ledger } with hst1
  have hfa2 : find_alert st1 aid = some (finish_alert now alert) := by
    simpa [find_alert, hst1] using
      find_update st.alerts aid alert (finish_alert now alert) hfa rfl
  have hact2 : (finish_alert now alert).is_active = true := hact
  have hdate2 : ¬ (finish_alert now alert).target_date < today := hdate
  have hfc2 : find_club st1 (finish_alert now alert).club_id = some club :=
    hfc
  rw [pa_processing nenv slots now today aid st1 (finish_alert now alert)
    club hfa2 hact2 hdate2 hfc2]
  have hall : ∀ s ∈ slots,
      keyExists st1.slots (fetchedKey (finish_alert now alert).id s) =
        true := by
    intro s hs
    simpa [hst1] using
      ps_complete nenv now alert club st.push_tokens
        (!alert.baseline_scraped) slots st.slots s hs
  rw [ps_stable nenv now (finish_alert now alert) club st1.push_tokens
    (!(finish_alert now alert).baseline_scraped) slots st1.slots hall]
  exact ⟨rfl, rfl⟩

/-! C1: deduplication across processing cycles. -/

/-- C1: starting from a slot ledger with no duplicate keys, any
sequence of processing cycles keeps the ledger free of duplicate
(alert id, playground id, date, start time) keys and attempts at most
one notification per key, never for a key already in the ledger;
running the processor twice in immediate succession yields the ledger
of a single run with no notification in the second run; and a fetched
slot whose key already exists is skipped without insertion or
notification. -/
theorem C1_dedup :
    (∀ (nenv : NotifyEnv) (now today : Int) (aid : Nat) (st : WorkerState)
        (fetches : List (Option (List Slot))),
      (st.slots.map ledgerKey).Nodup →
        (((run_cycles nenv now today aid fetches st).1.slots.map
          ledgerKey).Nodup ∧
         (run_cycles nenv now today aid fetches st).2.Nodup ∧
         ∀ k ∈ (run_cycles nenv now today aid fetches st).2,
           keyExists st.slots k = false)) ∧
    (∀ (nenv : NotifyEnv) (slots : List Slot) (now today : Int) (aid : Nat)
        (st : WorkerState) (alert : UserAlert) (club : Club),
      find_alert st aid = some alert → alert.is_active = true →
      ¬ alert.target_date < today → find_club st alert.club_id = some club →
        ((process_alert nenv (some slots) now today aid
            (process_alert nenv (some slots) now today aid
              st).state).state.slots =
          (process_alert nenv (some slots) now today aid st).state.slots ∧
         (process_alert nenv (some slots) now today aid
            (process_alert nenv (some slots) now today aid
              st).state).notified = [])) ∧
    (∀ (nenv : NotifyEnv) (now : Int) (alert : UserAlert) (club : Club)
        (toks : List PushToken) (b : Bool) (s : Slot) (rest : List Slot)
        (ledger : List DetectedSlot),
      keyExists ledger (fetchedKey alert.id s) = true →
        process_slots nenv now alert club toks b (s :: rest) ledger =
          process_slots nenv now alert club toks b rest ledger) := by
  refine ⟨?_, ?_, ?_⟩
  · intro nenv now today aid st fetches hnd
    obtain ⟨h1, h2, h3⟩ := rc_inv nenv now today aid fetches st hnd
    exact ⟨h1, h2, fun k hk => (h3 k hk).1⟩
  · intro nenv slots now today aid st alert club hfa hact hdate hfc
    exact pa_two_run nenv slots now today aid st alert club hfa hact hdate hfc
  · intro nenv now alert club toks b s rest ledger hk
    rw [process_slots, if_pos hk]

/-- Witness for C1, applying it to two successive cycles fetching the
same one-slot set from an empty ledger. -/
theorem C1_dedup_witness :
    ((run_cycles nenv_ok 1 90 1 [some [slot_a], some [slot_a]]
      st_base).1.slots.map ledgerKey).Nodup ∧
    (run_cycles nenv_ok 1 90 1 [some [slot_a], some [slot_a]]
      st_base).2.Nodup :=
  ⟨(C1_dedup.1 nenv_ok 1 90 1 st_base [some [slot_a], some [slot_a]]
      (by decide)).1,
   (C1_dedup.1 nenv_ok 1 90 1 st_base [some [slot_a], some [slot_a]]
      (by decide)).2.1⟩

/-! C2: baseline suppression. -/

/-- C2: on an alert's first successful cycle (baseline not yet
established at entry), for every fetched slot set no notification is
dispatched and the stats report zero notifications, every fetched
slot's key is present in the committed ledger, and the committed alert
row has its baseline flag set — also when the provider returned zero
slots, since the slot list is universally quantified. -/
theorem C2_baseline (nenv : NotifyEnv) (slots : List Slot) (now today : Int)
    (aid : Nat) (st : WorkerState) (alert : UserAlert) (club : Club)
    (hfa : find_alert st aid = some alert)
    (hact : alert.is_active = true)
    (hdate : ¬ alert.target_date < today)
    (hfc : find_club st alert.club_id = some club)
    (hbase : alert.baseline_scraped = false) :
    (process_alert nenv (some slots) now today aid st).notified = [] ∧
    (process_alert nenv (some slots) now today aid
      st).stats.notifications_sent = 0 ∧
    (∀ s ∈ slots, keyExists
      (process_alert nenv (some slots) now today aid st).state.slots
      (fetchedKey alert.id s) = true) ∧
    find_alert (process_alert nenv (some slots) now today aid st).state
      aid = some (finish_alert now alert) ∧
    (finish_alert now alert).baseline_scraped = true := by
  rw [pa_processing nenv slots now today aid st alert club hfa hact hdate hfc]
  have hb : (!alert.baseline_scraped) = true := by rw [hbase]; rfl
  refine ⟨?_, ?_, ?_, ?_, finish_alert_baseline now alert⟩
  · show (process_slots nenv now alert club st.push_tokens
      (!alert.baseline_scraped) slots st.slots).notified = []
    rw [hb]
    exact (ps_baseline nenv now alert club st.push_tokens slots st.slots).1
  · show (process_slots nenv now alert club st.push_tokens
      (!alert.baseline_scraped) slots st.slots).sent = 0
    rw [hb]
    exact (ps_baseline nenv now alert club st.push_tokens slots st.slots).2
  · intro s hs
    exact ps_complete nenv now alert club st.push_tokens
      (!alert.baseline_scraped) slots st.slots s hs
  · show (update_alert st.alerts (finish_alert now alert)).find?
      (fun b => b.id == aid) = some (finish_alert now alert)
    exact find_update st.alerts aid alert (finish_alert now alert) hfa rfl

/-- Witness for C2, applying it to the fresh sample alert with a
one-slot fetch. -/
theorem C2_baseline_witness :
    (process_alert nenv_ok (some [slot_a]) 1 90 1 st_base).notified = [] ∧
    (process_alert nenv_ok (some [slot_a]) 1 90 1
      st_base).stats.notifications_sent = 0 :=
  ⟨(C2_baseline nenv_ok [slot_a] 1 90 1 st_base alert_base club_base
      (by decide) (by decide) (by decide) (by decide) (by decide)).1,
   (C2_baseline nenv_ok [slot_a] 1 90 1 st_base alert_base club_base
      (by decide) (by decide) (by decide) (by decide) (by decide)).2.1⟩

/-! Lemmas about the Reclaimer's per-row transforms. -/

theorem eb_alert_is_active (now : Int) (a : UserAlert) :
    (expire_boosts_alert now a).is_active = a.is_active := by
  unfold expire_boosts_alert
  split <;> rfl

theorem eb_alert_target (now : Int) (a : UserAlert) :
    (expire_boosts_alert now a).target_date = a.target_date := by
  unfold expire_boosts_alert
  split <;> rfl

theorem eb_alert_baseline (now : Int) (a : UserAlert) :
    (expire_boosts_alert now a).baseline_scraped = a.baseline_scraped := by
  unfold expire_boosts_alert
  split <;> rfl

theorem eb_alert_ident (now : Int) (a : UserAlert) :
    (expire_boosts_alert now a).id = a.id := by
  unfold expire_boosts_alert
  split <;> rfl

theorem da_alert_baseline (today : Int) (a : UserAlert) :
    (deactivate_expired_alert today a).baseline_scraped =
      a.baseline_scraped := by
  unfold deactivate_expired_alert
  split <;> rfl

theorem da_alert_ident (today : Int) (a : UserAlert) :
    (deactivate_expired_alert today a).id = a.id := by
  unfold deactivate_expired_alert
  split <;> rfl

theorem eb_alert_idem (now : Int) (a : UserAlert) :
    expire_boosts_alert now (expire_boosts_alert now a) =
      expire_boosts_alert now a := by
  by_cases h : (a.boost_active &&
      (match a.boost_expires_at with
       | some e => decide (e < now)
       | none => false)) = true
  · simp [expire_boosts_alert, h]
  · simp [expire_boosts_alert, h]

theorem da_alert_idem (today : Int) (a : UserAlert) :
    deactivate_expired_alert today (deactivate_expired_alert today a) =
      deactivate_expired_alert today a := by
  by_cases h : (decide (a.target_date < today) && a.is_active) = true
  · simp [deactivate_expired_alert, h]
  · simp [deactivate_expired_alert, h]

theorem cleanup_alert_idem (now today : Int) (a : UserAlert) :
    deactivate_expired_alert today (expire_boosts_alert now
      (deactivate_expired_alert today (expire_boosts_alert now a))) =
      deactivate_expired_alert today (expire_boosts_alert now a) := by
  set b := expire_boosts_alert now a with hb
  by_cases hd : (decide (b.target_date < today) && b.is_active) = true
  · have hc : deactivate_expired_alert today b =
        { b with is_active := false, boost_active := false } := by
      simp [deactivate_expired_alert, hd]
    rw [hc]
    have heb : expire_boosts_alert now
        ({ b with is_active := false, boost_active := false }) =
        { b with is_active := false, boost_active := false } := by
      simp [expire_boosts_alert]
    rw [heb]
    simp [deactivate_expired_alert]
  · have hc : deactivate_expired_alert today b = b := by
      simp [deactivate_expired_alert, hd]
    rw [hc, hb, eb_alert_idem, ← hb, hc]

theorem cleanup_alerts_eq (now today : Int) (st : WorkerState) :
    (cleanup_expired_data now today st).alerts =
      st.alerts.map (fun a =>
        deactivate_expired_alert today (expire_boosts_alert now a)) := by
  simp [cleanup_expired_data, cleanup_expired_data_run, expire_boosts,
    List.map_map, Function.comp]

/-! C7: expired alerts are deactivated, terminally and idempotently. -/

/-- C7: processing an alert whose target date is strictly before today
deactivates it and clears its boost flag without consulting the
provider (the result is the same for every fetch outcome) and without
touching the ledger; processing an already-inactive alert changes
nothing; the Reclaimer sweep maps every alert row through boost expiry
then deactivation in one pass, which turns every expired active alert
into an inactive one with its boost flag cleared; and that per-row
transform is idempotent. -/
theorem C7_expired_deactivation :
    (∀ (nenv : NotifyEnv) (fetch : Option (List Slot)) (now today : Int)
        (aid : Nat) (st : WorkerState) (alert : UserAlert),
      find_alert st aid = some alert → alert.is_active = true →
      alert.target_date < today →
        process_alert nenv fetch now today aid st =
          ⟨{ st with
              alerts := update_alert st.alerts
                ({ alert with is_active := false, boost_active := false }) },
            ⟨0, 0, 0⟩, []⟩) ∧
    (∀ (nenv : NotifyEnv) (fetch : Option (List Slot)) (now today : Int)
        (aid : Nat) (st : WorkerState) (alert : UserAlert),
      find_alert st aid = some alert → alert.is_active = false →
        process_alert nenv fetch now today aid st = ⟨st, ⟨0, 0, 0⟩, []⟩) ∧
    (∀ (now today : Int) (st : WorkerState),
      (cleanup_expired_data now today st).alerts =
        st.alerts.map (fun a =>
          deactivate_expired_alert today (expire_boosts_alert now a))) ∧
    (∀ (now today : Int) (a : UserAlert),
      a.target_date < today → a.is_active = true →
        (deactivate_expired_alert today
          (expire_boosts_alert now a)).is_active = false ∧
        (deactivate_expired_alert today
          (expire_boosts_alert now a)).boost_active = false) ∧
    (∀ (now today : Int) (a : UserAlert),
      deactivate_expired_alert today (expire_boosts_alert now
        (deactivate_expired_alert today (expire_boosts_alert now a))) =
      deactivate_expired_alert today (expire_boosts_alert now a)) := by
  refine ⟨?_, ?_, ?_, ?_, cleanup_alert_idem⟩
  · intro nenv fetch now today aid st alert hfa hact hdate
    simp [process_alert, hfa, hact, hdate]
  · intro nenv fetch now today aid st alert hfa hinact
    simp [process_alert, hfa, hinact]
  · intro now today st
    simp [cleanup_expired_data, cleanup_expired_data_run, expire_boosts,
      List.map_map, Function.comp]
  · intro now today a h1 h2
    have hcond : (decide ((expire_boosts_alert now a).target_date < today)
        && (expire_boosts_alert now a).is_active) = true := by
      rw [eb_alert_target, eb_alert_is_active, h2]
      simp [h1]
    constructor <;> simp [deactivate_expired_alert, hcond]

/-- Witness for C7, applying its first part to the expired sample
alert: the cycle deactivates it and clears the boost without any
fetch. -/
theorem C7_expired_deactivation_witness :
    process_alert nenv_ok none 0 10 1 st_expired =
      ⟨{ st_expired with
          alerts := update_alert st_expired.alerts
            ({ alert_expired with
                is_active := false
                boost_active := false }) },
        ⟨0, 0, 0⟩, []⟩ :=
  C7_expired_deactivation.1 nenv_ok none 0 10 1 st_expired alert_expired
    (by decide) (by decide) (by decide)

/-! C8: the Reclaimer's units of work. -/

theorem map_eb_idem (now : Int) (l : List UserAlert) :
    (l.map (expire_boosts_alert now)).map (expire_boosts_alert now) =
      l.map (expire_boosts_alert now) := by
  induction l with
  | nil => rfl
  | cons a l ih => simp [eb_alert_idem, ih]

theorem map_da_idem (today : Int) (l : List UserAlert) :
    (l.map (deactivate_expired_alert today)).map
      (deactivate_expired_alert today) =
      l.map (deactivate_expired_alert today) := by
  induction l with
  | nil => rfl
  | cons a l ih => simp [da_alert_idem, ih]

theorem filter_prune_idem (today : Int) (l : List DetectedSlot) :
    (l.filter (fun d => !decide (d.date < today - 7))).filter
      (fun d => !decide (d.date < today - 7)) =
      l.filter (fun d => !decide (d.date < today - 7)) := by
  induction l with
  | nil => rfl
  | cons d l ih =>
    by_cases h : (!decide (d.date < today - 7)) = true
    · simp [List.filter_cons, h, ih]
    · simp [List.filter_cons, h, ih]

/-- C8 counterexample: in the state with an expired but still active
alert, a sweep whose pruning delete fails leaves the alert active —
the deactivation that had been performed in the same pass is rolled
back with the pruning, so expired-alert deactivation does not operate
as its own unit of work. -/
theorem C8_counterexample :
    ¬ ∀ a ∈ (cleanup_expired_data_run true 0 10 st_expired).alerts,
        a.target_date < 10 → a.is_active = false := by
  decide

/-- C8 (amended): the Reclaimer's three operations are individually
idempotent, but only boost expiry operates as its own unit of work:
a run whose pruning fails keeps exactly the committed boost expiry
(deactivation and pruning, which share the final commit, are rolled
back together); no state is corrupted — the full sweep is idempotent
and a successful sweep after a failed one produces exactly the state
of a single successful sweep. -/
theorem C8_reclaimer_units :
    (∀ (now : Int) (st : WorkerState),
      expire_boosts now (expire_boosts now st) = expire_boosts now st) ∧
    (∀ (today : Int) (l : List UserAlert),
      (l.map (deactivate_expired_alert today)).map
        (deactivate_expired_alert today) =
        l.map (deactivate_expired_alert today)) ∧
    (∀ (today : Int) (l : List DetectedSlot),
      (l.filter (fun d => !decide (d.date < today - 7))).filter
        (fun d => !decide (d.date < today - 7)) =
        l.filter (fun d => !decide (d.date < today - 7))) ∧
    (∀ (now today : Int) (st : WorkerState),
      cleanup_expired_data_run true now today st = expire_boosts now st) ∧
    (∀ (now today : Int) (st : WorkerState),
      cleanup_expired_data now today (cleanup_expired_data now today st) =
        cleanup_expired_data now today st) ∧
    (∀ (now today : Int) (st : WorkerState),
      cleanup_expired_data now today
        (cleanup_expired_data_run true now today st) =
        cleanup_expired_data now today st) := by
  have hcleanup : ∀ (now today : Int) (st : WorkerState),
      cleanup_expired_data now today st =
        { st with
          alerts := st.alerts.map (fun a =>
            deactivate_expired_alert today (expire_boosts_alert now a))
          slots := st.slots.filter (fun d => !decide (d.date < today - 7)) } := by
    intro now today st
    simp [cleanup_expired_data, cleanup_expired_data_run, expire_boosts,
      List.map_map, Function.comp]
  have hmap2 : ∀ (now today : Int) (l : List UserAlert),
      (l.map (fun a =>
        deactivate_expired_alert today (expire_boosts_alert now a))).map
        (fun a => deactivate_expired_alert today (expire_boosts_alert now a))
        = l.map (fun a =>
          deactivate_expired_alert today (expire_boosts_alert now a)) := by
    intro now today l
    induction l with
    | nil => rfl
    | cons a l ih => simp [cleanup_alert_idem, ih]
  have hmap3 : ∀ (now today : Int) (l : List UserAlert),
      (l.map (expire_boosts_alert now)).map
        (fun a => deactivate_expired_alert today (expire_boosts_alert now a))
        = l.map (fun a =>
          deactivate_expired_alert today (expire_boosts_alert now a)) := by
    intro now today l
    induction l with
    | nil => rfl
    | cons a l ih => simp [eb_alert_idem, ih]
  refine ⟨?_, map_da_idem, filter_prune_idem, ?_, ?_, ?_⟩
  · intro now st
    simp only [expire_boosts]
    simp [map_eb_idem now st.alerts]
  · intro now today st
    rfl
  · intro now today st
    simp only [hcleanup]
    simp [hmap2, filter_prune_idem]
  · intro now today st
    have hrun : cleanup_expired_data_run true now today st =
        expire_boosts now st := rfl
    rw [hrun]
    simp only [hcleanup]
    simp [expire_boosts, hmap3, filter_prune_idem]

/-! C10: monotonicity of the baseline flag. -/

theorem ids_nodup_inj (l : List UserAlert)
    (hnd : (l.map (fun a => a.id)).Nodup) :
    ∀ a ∈ l, ∀ a2 ∈ l, a2.id = a.id → a2 = a := by
  intro a ha a2 ha2 hid
  exact List.inj_on_of_nodup_map hnd ha2 ha hid

theorem baseline_mono_refl (l : List UserAlert)
    (hnd : (l.map (fun a => a.id)).Nodup) : baseline_mono l l := by
  intro a ha a2 ha2 hid hb
  rw [ids_nodup_inj l hnd a ha a2 ha2 hid]
  exact hb

theorem baseline_mono_map (l : List UserAlert) (f : UserAlert → UserAlert)
    (hnd : (l.map (fun a => a.id)).Nodup)
    (hpres : ∀ a, (f a).id = a.id ∧
      ((f a).baseline_scraped = a.baseline_scraped ∨
       (f a).baseline_scraped = true)) :
    baseline_mono l (l.map f) := by
  intro a ha a2 ha2 hid hb
  obtain ⟨a0, ha0, rfl⟩ := List.mem_map.mp ha2
  have hida : a0.id = a.id := by
    rw [← (hpres a0).1]
    exact hid
  have heq : a0 = a := ids_nodup_inj l hnd a ha a0 ha0 hida
  subst heq
  rcases (hpres a0).2 with h | h
  · rw [h]
    exact hb
  · exact h

theorem baseline_mono_update (l : List UserAlert) (aid : Nat)
    (alert x : UserAlert)
    (hnd : (l.map (fun a => a.id)).Nodup)
    (hfa : l.find? (fun b => b.id == aid) = some alert)
    (hid : x.id = alert.id)
    (hbase : x.baseline_scraped = alert.baseline_scraped ∨
      x.baseline_scraped = true) :
    baseline_mono l (update_alert l x) := by
  intro a ha a2 ha2 hid2 hb
  unfold update_alert at ha2
  obtain ⟨a0, ha0, rfl⟩ := List.mem_map.mp ha2
  have hmem : alert ∈ l := List.mem_of_find?_eq_some hfa
  by_cases hc : a0.id = x.id
  · rw [if_pos hc] at hid2 ⊢
    have hax : alert.id = a.id := by
      rw [← hid]
      exact hid2
    have heq : alert = a := ids_nodup_inj l hnd a ha alert hmem hax
    rcases hbase with h | h
    · rw [h, heq]
      exact hb
    · exact h
  · rw [if_neg hc] at hid2 ⊢
    have heq : a0 = a := ids_nodup_inj l hnd a ha a0 ha0 hid2
    rw [heq]
    exact hb

theorem baseline_mono_trans (l l2 l3 : List UserAlert)
    (hids : l2.map (fun a => a.id) = l.map (fun a => a.id))
    (h12 : baseline_mono l l2) (h23 : baseline_mono l2 l3) :
    baseline_mono l l3 := by
  intro a ha a3 ha3 hid hb
  have hmem : a.id ∈ l2.map (fun a => a.id) := by
    rw [hids]
    exact List.mem_map_of_mem _ ha
  obtain ⟨a2, ha2, hia⟩ := List.mem_map.mp hmem
  exact h23 a2 ha2 a3 ha3 (by rw [hid, ← hia]) (h12 a ha a2 ha2 hia hb)

theorem map_id_update (l : List UserAlert) (x : UserAlert) :
    (update_alert l x).map (fun a => a.id) = l.map (fun a => a.id) := by
  unfold update_alert
  induction l with
  | nil => rfl
  | cons b bs ih =>
    by_cases hc : b.id = x.id
    · simp only [List.map_cons, if_pos hc, ih]
      rw [hc]
    · simp only [List.map_cons, if_neg hc, ih]

theorem map_id_pointwise (l : List UserAlert) (f : UserAlert → UserAlert)
    (h : ∀ a, (f a).id = a.id) :
    (l.map f).map (fun a => a.id) = l.map (fun a => a.id) := by
  induction l with
  | nil => rfl
  | cons b bs ih => simp [h, ih]

theorem pa_alerts_cases (nenv : NotifyEnv) (fetch : Option (List Slot))
    (now today : Int) (aid : Nat) (st : WorkerState) :
    (process_alert nenv fetch now today aid st).state.alerts = st.alerts ∨
    ∃ alert x, find_alert st aid = some alert ∧ x.id = alert.id ∧
      (x.baseline_scraped = alert.baseline_scraped ∨
        x.baseline_scraped = true) ∧
      (process_alert nenv fetch now today aid st).state.alerts =
        update_alert st.alerts x := by
  cases hfa : find_alert st aid with
  | none => left; simp [process_alert, hfa]
  | some alert =>
    by_cases hact : alert.is_active = false
    · left; simp [process_alert, hfa, hact]
    · have hact2 : alert.is_active = true := by
        simpa using hact
      by_cases hdate : alert.target_date < today
      · right
        refine ⟨alert,
          { alert with is_active := false, boost_active := false },
          rfl, rfl, Or.inl rfl, ?_⟩
        simp [process_alert, hfa, hact, hdate]
      · cases hfc : find_club st alert.club_id with
        | none => left; simp [process_alert, hfa, hact, hdate, hfc]
        | some club =>
          cases fetch with
          | none => left; simp [process_alert, hfa, hact, hdate, hfc]
          | some slots =>
            right
            refine ⟨alert, finish_alert now alert, rfl, rfl,
              Or.inr (finish_alert_baseline now alert), ?_⟩
            rw [pa_processing nenv slots now today aid st alert club hfa
              hact2 hdate hfc]

theorem pa_baseline_mono (nenv : NotifyEnv) (fetch : Option (List Slot))
    (now today : Int) (aid : Nat) (st : WorkerState)
    (hnd : (st.alerts.map (fun a => a.id)).Nodup) :
    baseline_mono st.alerts
      (process_alert nenv fetch now today aid st).state.alerts ∧
    (process_alert nenv fetch now today aid st).state.alerts.map
      (fun a => a.id) = st.alerts.map (fun a => a.id) := by
  rcases pa_alerts_cases nenv fetch now today aid st with
    h | ⟨alert, x, hfa, hid, hbase, h⟩
  · rw [h]
    exact ⟨baseline_mono_refl st.alerts hnd, rfl⟩
  · rw [h]
    exact ⟨baseline_mono_update st.alerts aid alert x hnd hfa hid hbase,
      map_id_update st.alerts x⟩

theorem fold_baseline_mono (nenv : NotifyEnv)
    (fetches : Nat → Option (List Slot)) (now today : Int) :
    ∀ (L : List UserAlert) (st : WorkerState),
      (st.alerts.map (fun a => a.id)).Nodup →
      baseline_mono st.alerts
        ((L.foldl (fun s a =>
          (process_alert nenv (fetches a.id) now today a.id s).state)
          st)).alerts ∧
      ((L.foldl (fun s a =>
          (process_alert nenv (fetches a.id) now today a.id s).state)
          st)).alerts.map (fun a => a.id) =
        st.alerts.map (fun a => a.id) := by
  intro L
  induction L with
  | nil => intro st hnd; exact ⟨baseline_mono_refl st.alerts hnd, rfl⟩
  | cons a L ih =>
    intro st hnd
    obtain ⟨h1, hids⟩ :=
      pa_baseline_mono nenv (fetches a.id) now today a.id st hnd
    have hnd2 : ((process_alert nenv (fetches a.id) now today a.id
        st).state.alerts.map (fun a => a.id)).Nodup := by
      rw [hids]
      exact hnd
    obtain ⟨h2, hids2⟩ :=
      ih (process_alert nenv (fetches a.id) now today a.id st).state hnd2
    rw [List.foldl_cons]
    refine ⟨?_, by rw [hids2, hids]⟩
    exact baseline_mono_trans st.alerts _ _ hids h1 h2

/-- C10: the baseline-established flag is monotone under every core
operation — one alert-processor cycle, the inline boost-expiry sweep,
the Reclaimer sweep (on both its success and its pruning-failure
path), and one full scheduler tick: a row whose `baseline_scraped` is
true keeps it true, matching rows by alert id in an id-unique alert
table. -/
theorem C10_baseline_monotone (st : WorkerState)
    (hnd : (st.alerts.map (fun a => a.id)).Nodup) :
    (∀ (nenv : NotifyEnv) (fetch : Option (List Slot)) (now today : Int)
        (aid : Nat),
      baseline_mono st.alerts
        (process_alert nenv fetch now today aid st).state.alerts) ∧
    (∀ now : Int, baseline_mono st.alerts (expire_boosts now st).alerts) ∧
    (∀ (pf : Bool) (now today : Int),
      baseline_mono st.alerts
        (cleanup_expired_data_run pf now today st).alerts) ∧
    (∀ (nenv : NotifyEnv) (fetches : Nat → Option (List Slot))
        (now today : Int),
      baseline_mono st.alerts
        (scheduler_tick nenv fetches now today st).alerts) := by
  have heb : ∀ now : Int,
      baseline_mono st.alerts (expire_boosts now st).alerts := by
    intro now
    exact baseline_mono_map st.alerts (expire_boosts_alert now) hnd
      (fun a => ⟨eb_alert_ident now a, Or.inl (eb_alert_baseline now a)⟩)
  refine ⟨?_, heb, ?_, ?_⟩
  · intro nenv fetch now today aid
    exact (pa_baseline_mono nenv fetch now today aid st hnd).1
  · intro pf now today
    cases pf
    · show baseline_mono st.alerts
        (cleanup_expired_data now today st).alerts
      have halerts : (cleanup_expired_data now today st).alerts =
          st.alerts.map (fun a =>
            deactivate_expired_alert today (expire_boosts_alert now a)) :=
        cleanup_alerts_eq now today st
      rw [halerts]
      exact baseline_mono_map st.alerts
        (fun a => deactivate_expired_alert today (expire_boosts_alert now a))
        hnd
        (fun a => ⟨by rw [da_alert_ident, eb_alert_ident],
          Or.inl (by rw [da_alert_baseline, eb_alert_baseline])⟩)
    · exact heb now
  · intro nenv fetches now today
    show baseline_mono st.alerts
      ((((expire_boosts now st).alerts.filter (fun a =>
          a.is_active && decide (a.target_date ≥ today))).filter
        (fun a => is_due a now)).foldl
        (fun s a => (process_alert nenv (fetches a.id) now today a.id
          s).state) (expire_boosts now st)).alerts
    have hids1 : (expire_boosts now st).alerts.map (fun a => a.id) =
        st.alerts.map (fun a => a.id) :=
      map_id_pointwise st.alerts (expire_boosts_alert now)
        (fun a => eb_alert_ident now a)
    have hnd1 : ((expire_boosts now st).alerts.map
        (fun a => a.id)).Nodup := by
      rw [hids1]
      exact hnd
    obtain ⟨h2, _⟩ := fold_baseline_mono nenv fetches now today
      ((((expire_boosts now st).alerts.filter (fun a =>
        a.is_active && decide (a.target_date ≥ today))).filter
        (fun a => is_due a now)))
      (expire_boosts now st) hnd1
    exact baseline_mono_trans st.alerts (expire_boosts now st).alerts _
      hids1 (heb now) h2

/-- Witness for C10, applying it to the baseline-established sample
alert under the boost-expiry sweep. -/
theorem C10_baseline_monotone_witness :
    baseline_mono st_done.alerts (expire_boosts 0 st_done).alerts :=
  (C10_baseline_monotone st_done (by decide)).2.1 0

/-- Witness for C6, applying it to the sample state with a failed
fetch. -/
theorem C6_fetch_failure_witness :
    (process_alert nenv_ok none 1 90 1 st_base).state = st_base ∧
    (process_alert nenv_ok none 1 90 1 st_base).stats = ⟨0, 0, 1⟩ :=
  ⟨(C6_fetch_failure nenv_ok 1 90 1 st_base alert_base club_base
      (by decide) (by decide) (by decide) (by decide)).1,
   (C6_fetch_failure nenv_ok 1 90 1 st_base alert_base club_base
      (by decide) (by decide) (by decide) (by decide)).2.1⟩

/-- Witness for C9, applying it on day 10 to rows dated day 2
(removed) and day 4 (retained). -/
theorem C9_retention_witness :
    row_old8 ∉ (cleanup_expired_data 0 10 st_rows).slots ∧
    row_old6 ∈ (cleanup_expired_data 0 10 st_rows).slots :=
  ⟨(C9_retention 0 10 st_rows).2.1 row_old8 (by decide) (by decide),
   (C9_retention 0 10 st_rows).2.2 row_old6 (by decide) (by decide)⟩

end Krenoo
